import Mathlib

/-!
Verification of the photo-strip compositing pipeline of the photobooth
component (`src/components/CosmicPhotobooth.tsx` and
`src/components/stickers.ts`), as a shallow embedding in Lean.

Modelling conventions:
* DOM/canvas drawing is modelled symbolically: a 2D context accumulates a
  list of `DrawOp` values; an image is a raw frame together with the list of
  context filters that were in force when it was drawn (most recent first).
* `Math.random()` draws are modelled as an abstract stream `rng : Nat → ℚ`
  of rationals, with the hypothesis `0 ≤ rng k < 1` where it matters.
* The asynchronous image-load callbacks of `downloadPhotoStrip` are modelled
  by an event trace (`Event`): each `img.onload` firing is one event, folded
  over a compositor state; a load that never completes simply never appears
  in the trace.
-/

namespace Photobooth

/-- A named visual filter, `interface Filter \x7b name; cssFilter \x7d`. -/
structure Filter where
  name : String
  cssFilter : String
deriving DecidableEq, Repr

/-- The filter catalog, `const filters: Filter[]` (CosmicPhotobooth.tsx:12). -/
def filters : List Filter :=
  [ { name := "No Filter", cssFilter := "none" },
    { name := "B&W", cssFilter := "var(--filter-bw)" },
    { name := "Sepia", cssFilter := "var(--filter-sepia)" },
    { name := "Vintage", cssFilter := "var(--filter-vintage)" },
    { name := "Soft", cssFilter := "var(--filter-soft)" },
    { name := "Noir", cssFilter := "var(--filter-noir)" },
    { name := "Vivid", cssFilter := "var(--filter-vivid)" } ]

/-- A sticker theme, from `src/components/stickers.ts`. -/
structure StickerTheme where
  name : String
  value : String
  images : List String
deriving DecidableEq, Repr

/-- `export const STICKER_THEMES` (stickers.ts:1). -/
def STICKER_THEMES : List StickerTheme :=
  [ { name := "None", value := "none", images := [] },
    { name := "Heart", value := "heart", images := ["/stickers/heart.png"] },
    { name := "Star", value := "star", images := ["/stickers/star.png"] },
    { name := "Cute Cat", value := "cat", images := ["/stickers/cat.png"] },
    { name := "Cartoon", value := "cartoon", images := ["/stickers/cartoon.png"] } ]

/-! ### Photo-strip layout constants (downloadPhotoStrip, lines 137-147) -/

/-- `const photoWidth = 400`. -/
def photoWidth : Nat := 400

/-- `const photoHeight = 300`. -/
def photoHeight : Nat := 300

/-- `const stripWidth = photoWidth + 40`. -/
def stripWidth : Nat := photoWidth + 40

/-- `const previewPaddingTop = 60` — top padding for the header. -/
def previewPaddingTop : Nat := 60

/-- `const previewPhotoGap = 10` — gap between photos. -/
def previewPhotoGap : Nat := 10

/-- `const previewDatePadding = 16` — padding below the last photo for the date. -/
def previewDatePadding : Nat := 16

/-- `const stripHeight = previewPaddingTop + (photoHeight * numPhotos) +
(previewPhotoGap * (numPhotos - 1)) + previewDatePadding + 24` (the 24 is
the date text height).  `downloadPhotoStrip` only reaches this line with
`numPhotos ≥ 1` (the empty guard returns first), so Nat subtraction agrees
with JS arithmetic there. -/
def stripHeight (numPhotos : Nat) : Nat :=
  previewPaddingTop + photoHeight * numPhotos
    + previewPhotoGap * (numPhotos - 1) + previewDatePadding + 24

/-! ### Capture sequencer (capturePhoto, startPhotoSequence, lines 77-126) -/

/-- A raw video frame at one instant. -/
structure RawFrame where
  id : Nat
deriving DecidableEq, Repr

/-- A symbolic raster image: a raw frame together with the drawing-context
filters that were in force at each draw producing it, most recent first.
A snapshot fresh from `capturePhoto` has exactly its capture-time filter
burned in. -/
structure Image where
  frame : RawFrame
  applied : List String
deriving DecidableEq, Repr

/-- The environment at one shot instant: whether `videoRef.current`,
`canvasRef.current` and the 2D context are all available, the current video
frame, and the filter active at that instant. -/
structure ShotEnv where
  avail : Bool
  frame : RawFrame
  activeFilter : Filter
deriving DecidableEq, Repr

/-- `capturePhoto` (lines 77-94): returns `null` when the video/canvas
surface is unavailable; otherwise sets `ctx.filter = activeFilter.cssFilter`,
draws the current video frame, and returns the encoded image. -/
def capturePhoto (e : ShotEnv) : Option Image :=
  if e.avail then
    some { frame := e.frame, applied := [e.activeFilter.cssFilter] }
  else none

/-- The body of the 3-iteration `for` loop of `startPhotoSequence`
(lines 104-123), generalized over the remaining shots: each shot appends its
snapshot if `capturePhoto` produced one, and is skipped otherwise. -/
def shotLoop : List ShotEnv → List Image → List Image
  | [], acc => acc
  | e :: rest, acc =>
    match capturePhoto e with
    | some p => shotLoop rest (acc ++ [p])
    | none => shotLoop rest acc

/-- The successive values taken by the `capturedPhotos` state during the
loop, one entry per completed iteration (after the shot of that iteration). -/
def shotLoopTrace : List ShotEnv → List Image → List (List Image)
  | [], _ => []
  | e :: rest, acc =>
    match capturePhoto e with
    | some p => (acc ++ [p]) :: shotLoopTrace rest (acc ++ [p])
    | none => acc :: shotLoopTrace rest acc

/-- The component state touched by the capture sequencer. -/
structure SessionState where
  capturedPhotos : List Image
  captureTime : String
  isCapturing : Bool
deriving DecidableEq, Repr

/-- `startPhotoSequence` (lines 97-126): no-op if `isCapturing`; otherwise
resets `capturedPhotos` to `[]`, records `captureTime` from the clock at
start (`new Date().toLocaleString()`), runs exactly three shots, and clears
`isCapturing` at the end.  `now` is the clock reading at the start instant;
the three `ShotEnv`s describe the world at the three shot instants. -/
def startPhotoSequence (now : String) (e0 e1 e2 : ShotEnv)
    (s : SessionState) : SessionState :=
  if s.isCapturing then s
  else
    { capturedPhotos := shotLoop [e0, e1, e2] [],
      captureTime := now,
      isCapturing := false }

/-- The successive values of `capturedPhotos` during a non-rejected run:
the reset to `[]` (line 101) first, then the value after each iteration. -/
def capturedPhotosTrace (e0 e1 e2 : ShotEnv) : List (List Image) :=
  [] :: shotLoopTrace [e0, e1, e2] []

/-- A live media stream handle (opaque). -/
structure MediaStream where
  id : Nat
deriving DecidableEq, Repr

/-- The capture start operation as wired in the UI: the start button carries
`disabled=\x7bisCapturing || !stream\x7d` (line 348) and
`onClick=\x7bstartPhotoSequence\x7d`; a click on a disabled button does
nothing. -/
def startButtonClick (now : String) (e0 e1 e2 : ShotEnv)
    (stream : Option MediaStream) (s : SessionState) : SessionState :=
  if s.isCapturing || stream.isNone then s
  else startPhotoSequence now e0 e1 e2 s

/-! ### Strip compositor: canvas operations (downloadPhotoStrip, 130-285)

The 2D context is modelled symbolically as the list of operations performed
on it.  A rotation of `rot` radians is recorded as the raw value assigned in
the source (for sticker rotations the source computes
`Math.random() * 2 * Math.PI`; the op stores the `Math.random()` draw as a
fraction of a full turn, the constant `2π` being implicit in the
constructor). -/

inductive DrawOp where
  | fillRect (color : String) (x y w h : ℚ)
  | strokeRect (color : String) (lineWidth x y w h : ℚ)
  | ellipse (color : String) (cx cy rx ry : ℚ)
  | heart (color : String) (cx cy rot : ℚ)
  | text (font color align content : String) (x y : ℚ)
  | drawImage (img : Image) (ctxFilter : String) (x y w h : ℚ)
  | drawSticker (src : String) (cx cy angleTurns size : ℚ)
deriving DecidableEq, Repr

/-- `function drawButterfly(x, y)` (lines 162-182): four filled ellipses
around the translated origin. -/
def drawButterfly (x y : ℚ) : List DrawOp :=
  [ DrawOp.ellipse "#ffb6b9" x (y - 10) 8 12,
    DrawOp.ellipse "#b6e2ff" x (y + 10) 8 12,
    DrawOp.ellipse "#c3f584" (x - 10) y 12 8,
    DrawOp.ellipse "#f7e1ff" (x + 10) y 12 8 ]

/-- The `switch (stripStyleClass)` background painting (lines 150-212). -/
def paintBackground (stripStyleClass customColorParam : String)
    (w h : ℚ) : List DrawOp :=
  if stripStyleClass = "strip-cartoon" then
    [ DrawOp.fillRect "#ffe066" 0 0 w h,
      DrawOp.strokeRect "#222" 8 0 0 w h ]
  else if stripStyleClass = "strip-flower" then
    DrawOp.fillRect "#f7e1ff" 0 0 w h
      :: (drawButterfly 20 20 ++ drawButterfly (w - 20) (h - 20))
  else if stripStyleClass = "strip-heart" then
    DrawOp.fillRect "#fff0f6" 0 0 w h
      :: (List.range 5).map (fun i => DrawOp.heart "#ff69b4" (80 + i * 60) 40 (-1/5))
  else if stripStyleClass = "strip-custom" then
    [ DrawOp.fillRect customColorParam 0 0 w h ]
  else
    [ DrawOp.fillRect "#ffffff" 0 0 w h ]

/-- The header caption (lines 215-218). -/
def headerOps : List DrawOp :=
  [ DrawOp.text "bold 32px \"Times New Roman\", Times, serif" "#222" "center"
      "Captured by FotoJB" (stripWidth / 2) 40 ]

/-! ### Filter resolution (lines 228-238) -/

/-- The computed document style: `getComputedStyle(root).getPropertyValue`
for each of the two roots queried by the source.  An unset property yields
`""`, which is falsy in JS. -/
structure StyleEnv where
  documentElement : String → String
  body : String → String

/-- A whitespace character for `String.prototype.trim`. -/
def isJsSpace (c : Char) : Bool :=
  c = ' ' ∨ c = '\t' ∨ c = '\n' ∨ c = '\r' ∨ c = '\x0b' ∨ c = '\x0c'

/-- `String.prototype.trim`: strip leading and trailing whitespace.
(Strings are manipulated through their character lists so that every
operation is structurally recursive.) -/
def jsTrim (s : String) : String :=
  ⟨((s.data.dropWhile isJsSpace).reverse.dropWhile isJsSpace).reverse⟩

/-- `filterValue.startsWith('var(')`. -/
def startsWithVar (s : String) : Bool :=
  s.data.take 4 = "var(".data

/-- The first capture group of the regex `var\(([^)]+)\)` matched at the
start of the string — the only position exercised by the source, which tests
`filterValue.startsWith('var(')` first: the nonempty run of non-`)`
characters after `var(`, provided the run is closed by `)`. -/
def matchVar (s : String) : Option String :=
  let rest := s.data.drop 4
  let cap := rest.takeWhile (fun c => c ≠ ')')
  if cap.length ≠ 0 ∧ cap.length < rest.length then some ⟨cap⟩ else none

/-- Lines 228-238: resolve the active filter's value into the concrete
string assigned to `ctx.filter` before drawing a snapshot.  Mirrors the JS
`A || B || 'none'` chain (empty string is falsy) followed by
`filterValue.trim() || 'none'`. -/
def resolveFilter (env : StyleEnv) (cssFilter : String) : String :=
  let filterValue :=
    if startsWithVar cssFilter then
      match matchVar cssFilter with
      | some cap =>
        let key := jsTrim cap
        if env.documentElement key ≠ "" then env.documentElement key
        else if env.body key ≠ "" then env.body key
        else "none"
      | none => cssFilter
    else cssFilter
  if jsTrim filterValue = "" then "none" else jsTrim filterValue

/-! ### Sticker placement (lines 242-267) -/

/-- `const stickerSize = Math.floor(photoWidth * 0.12)`. -/
def stickerSize : Nat := (((photoWidth : ℚ) * (12 / 100)).floor).toNat

/-- The sticker drawing performed for one photo slot when the sticker image
load fires (lines 242-265): guarded on a non-`'none'` theme with a nonempty
image list, draws `Math.floor(Math.random() * 2) + 7` copies of the theme's
first image at random positions and rotations inside that photo's frame.
`rng k` is the `k`-th `Math.random()` draw of this handler (draw 0 decides
the count, then three draws per sticker); `y` is the photo slot's vertical
offset. -/
def stickerOpsForSlot (selectedStickerTheme : String) (rng : Nat → ℚ)
    (y : ℚ) : List DrawOp :=
  if selectedStickerTheme ≠ "none" then
    match STICKER_THEMES.find? (fun t => t.value = selectedStickerTheme) with
    | some theme =>
      if theme.images.length ≠ 0 then
        let stickerSrc := theme.images.headI
        let size : ℚ := stickerSize
        let stickerCount := (⌊rng 0 * 2⌋).toNat + 7
        (List.range stickerCount).map (fun s =>
          let margin : ℚ := 8
          let randX := 20 + margin + rng (1 + 3 * s) * (photoWidth - size - 2 * margin)
          let randY := y + margin + rng (2 + 3 * s) * (photoHeight - size - 2 * margin)
          DrawOp.drawSticker stickerSrc (randX + size / 2) (randY + size / 2)
            (rng (3 + 3 * s)) size)
      else []
    | none => []
  else []

/-! ### Asynchronous fan-in of downloadPhotoStrip (lines 221-284)

The synchronous part of `downloadPhotoStrip` paints the background and the
header and registers one `img.onload` callback per captured photo; each
snapshot load later draws its photo, possibly registers a sticker
`onload`, bumps `loadedCount`, and — when the count reaches the number of
photos — draws the date line and triggers the download.  Callbacks firing is
modelled as a trace of events folded over the compositor state. -/

inductive Event where
  | snapLoaded (i : Nat)
  | stickerLoaded (slot : Nat)
deriving DecidableEq, Repr

/-- Whether an event is a snapshot-image load. -/
def Event.isSnap : Event → Bool
  | .snapLoaded _ => true
  | .stickerLoaded _ => false

/-- The arguments and component state read by `downloadPhotoStrip`. -/
structure CompositeInput where
  capturedPhotos : List Image
  stripStyleClass : String
  customColorParam : String
  activeFilter : Filter
  selectedStickerTheme : String
  captureTime : String

/-- Compositor state: operations performed on the strip canvas so far, the
`loadedCount` counter, whether the date line has been drawn, and whether the
download link has been clicked. -/
structure CompState where
  ops : List DrawOp
  loadedCount : Nat
  dateDrawn : Bool
  downloaded : Bool
deriving DecidableEq, Repr

/-- `const y = previewPaddingTop + (index * (photoHeight + previewPhotoGap))`
(line 226). -/
def photoY (index : Nat) : ℚ :=
  (previewPaddingTop : ℚ) + index * ((photoHeight : ℚ) + (previewPhotoGap : ℚ))

/-- `const dateY = previewPaddingTop + (photoHeight * numPhotos) +
(previewPhotoGap * (numPhotos - 1)) + previewDatePadding` (line 274); JS
number arithmetic, only reached with `n ≥ 1`. -/
def dateLineY (n : Nat) : ℚ :=
  (previewPaddingTop : ℚ) + (photoHeight : ℚ) * n
    + (previewPhotoGap : ℚ) * ((n : ℚ) - 1) + (previewDatePadding : ℚ)

/-- One `onload` callback firing (lines 224-282 for a snapshot image,
249-265 for a sticker image).  `rng slot` is the `Math.random()` stream of
the sticker handler of `slot`.  A snapshot load draws its photo with the
resolved composite-time filter, bumps `loadedCount`, and on reaching the
photo count draws the date line and triggers the download; a sticker load
draws only sticker decorations.  Sticker handlers are registered (inside the
snapshot callback) only under the theme guard, which
`stickerOpsForSlot` reproduces, so an event for an inactive theme draws
nothing. -/
def handleEvent (env : StyleEnv) (rng : Nat → Nat → ℚ) (inp : CompositeInput) :
    CompState → Event → CompState
  | s, .snapLoaded i =>
    let img := inp.capturedPhotos.getD i ⟨⟨0⟩, []⟩
    let filterValue := resolveFilter env inp.activeFilter.cssFilter
    let ops := s.ops ++
      [DrawOp.drawImage img filterValue 20 (photoY i) photoWidth photoHeight]
    if s.loadedCount + 1 = inp.capturedPhotos.length then
      { ops := ops ++ [DrawOp.text "16px Arial" "#555" "center" inp.captureTime
            ((stripWidth : ℚ) / 2) (dateLineY inp.capturedPhotos.length)],
        loadedCount := s.loadedCount + 1, dateDrawn := true, downloaded := true }
    else
      { ops := ops, loadedCount := s.loadedCount + 1,
        dateDrawn := s.dateDrawn, downloaded := s.downloaded }
  | s, .stickerLoaded slot =>
    { s with ops := s.ops ++
        stickerOpsForSlot inp.selectedStickerTheme (rng slot) (photoY slot) }

/-- The compositor state right after the synchronous part of
`downloadPhotoStrip` (background, header), before any load completes. -/
def initialCompState (inp : CompositeInput) : CompState :=
  { ops := paintBackground inp.stripStyleClass inp.customColorParam
        (stripWidth : ℚ) (stripHeight inp.capturedPhotos.length) ++ headerOps,
    loadedCount := 0, dateDrawn := false, downloaded := false }

/-- `downloadPhotoStrip` (lines 130-285): returns at once on an empty
snapshot sequence; otherwise paints background and header synchronously and
then processes the image-load events of `trace` as they fire. -/
def downloadPhotoStrip (env : StyleEnv) (rng : Nat → Nat → ℚ)
    (inp : CompositeInput) (trace : List Event) : CompState :=
  if inp.capturedPhotos.length = 0 then
    { ops := [], loadedCount := 0, dateDrawn := false, downloaded := false }
  else
    trace.foldl (handleEvent env rng inp) (initialCompState inp)

/-- The indices of the snapshot-load events of a trace, in firing order. -/
def snapIndices (trace : List Event) : List Nat :=
  trace.filterMap (fun e => match e with
    | .snapLoaded i => some i
    | .stickerLoaded _ => none)

/-- A browser-realizable trace for an `n`-photo composite: each snapshot
`onload` concerns one of the `n` registered images and fires at most once. -/
def WFTrace (n : Nat) (trace : List Event) : Prop :=
  (∀ i ∈ snapIndices trace, i < n) ∧ (snapIndices trace).Nodup

/-- The filters affecting the pixels of an image-draw operation: the context
filter at draw time, then the filters already burned into the image. -/
def effectiveFilters : DrawOp → Option (List String)
  | DrawOp.drawImage img ctxFilter _ _ _ _ => some (ctxFilter :: img.applied)
  | _ => none

/-! ### Helper lemmas -/

/-- `shotLoop` appends exactly the successful captures, in shot order. -/
theorem shotLoop_eq_append_filterMap (envs : List ShotEnv) (acc : List Image) :
    shotLoop envs acc = acc ++ envs.filterMap capturePhoto := by
  induction envs generalizing acc with
  | nil => simp [shotLoop]
  | cons e rest ih =>
    cases h : capturePhoto e <;> simp [shotLoop, h, ih]

/-- Every intermediate `capturedPhotos` value is a prefix of the final one. -/
theorem shotLoopTrace_prefix (envs : List ShotEnv) (acc : List Image) :
    ∀ st ∈ shotLoopTrace envs acc, st <+: shotLoop envs acc := by
  induction envs generalizing acc with
  | nil => simp [shotLoopTrace]
  | cons e rest ih =>
    intro st hst
    cases h : capturePhoto e with
    | some p =>
      simp [shotLoopTrace, h] at hst
      simp only [shotLoop, h]
      rcases hst with hst | hst
      · subst hst
        rw [shotLoop_eq_append_filterMap]
        exact ⟨_, rfl⟩
      · exact ih _ st hst
    | none =>
      simp [shotLoopTrace, h] at hst
      simp only [shotLoop, h]
      rcases hst with hst | hst
      · subst hst
        rw [shotLoop_eq_append_filterMap]
        exact ⟨_, rfl⟩
      · exact ih _ st hst

/-- Every operation emitted by the sticker handler is a sticker draw of the
selected theme's first image. -/
theorem stickerOpsForSlot_shape (v : String) (rng : Nat → ℚ) (y : ℚ) :
    ∀ op ∈ stickerOpsForSlot v rng y,
      ∃ theme cx cy a sz, STICKER_THEMES.find? (fun t => t.value = v) = some theme ∧
        op = DrawOp.drawSticker theme.images.headI cx cy a sz := by
  intro op hop
  unfold stickerOpsForSlot at hop
  split at hop
  · split at hop
    · rename_i theme hfind
      split at hop
      · simp only [List.mem_map, List.mem_range] at hop
        obtain ⟨s, _, rfl⟩ := hop
        exact ⟨theme, _, _, _, _, hfind, rfl⟩
      · simp at hop
    · simp at hop
  · simp at hop

/-- The synchronous ops (background and header) contain no image draw. -/
theorem initial_ops_no_drawImage (inp : CompositeInput) :
    ∀ op ∈ (initialCompState inp).ops, ∀ img ctxF x y w h,
      op ≠ DrawOp.drawImage img ctxF x y w h := by
  intro op hop img ctxF x y w h heq
  subst heq
  simp only [initialCompState, List.mem_append] at hop
  rcases hop with hop | hop
  · unfold paintBackground at hop
    split at hop
    · simp at hop
    · split at hop
      · simp [drawButterfly] at hop
      · split at hop
        · simp at hop
        · split at hop
          · simp at hop
          · simp at hop
  · simp [headerOps] at hop

theorem mem_snapIndices (trace : List Event) (i : Nat) :
    i ∈ snapIndices trace ↔ Event.snapLoaded i ∈ trace := by
  simp only [snapIndices, List.mem_filterMap]
  constructor
  · rintro ⟨e, he, hm⟩
    cases e with
    | snapLoaded j =>
      simp only [Option.some.injEq] at hm
      subst hm
      exact he
    | stickerLoaded _ => simp at hm
  · intro h
    exact ⟨Event.snapLoaded i, h, rfl⟩

theorem foldl_loadedCount (env : StyleEnv) (rng : Nat → Nat → ℚ)
    (inp : CompositeInput) (trace : List Event) :
    ∀ s : CompState,
      (trace.foldl (handleEvent env rng inp) s).loadedCount
        = s.loadedCount + (snapIndices trace).length := by
  induction trace with
  | nil => intro s; simp [snapIndices]
  | cons e rest ih =>
    intro s
    cases e with
    | snapLoaded i =>
      rw [List.foldl_cons, ih]
      have hlc : (handleEvent env rng inp s (.snapLoaded i)).loadedCount
          = s.loadedCount + 1 := by
        simp only [handleEvent]
        split <;> rfl
      rw [hlc]
      simp only [snapIndices, List.filterMap_cons]
      simp
      omega
    | stickerLoaded slot =>
      rw [List.foldl_cons, ih]
      have hlc : (handleEvent env rng inp s (.stickerLoaded slot)).loadedCount
          = s.loadedCount := rfl
      rw [hlc]
      simp [snapIndices]

theorem foldl_downloaded (env : StyleEnv) (rng : Nat → Nat → ℚ)
    (inp : CompositeInput) (trace : List Event) :
    ∀ s : CompState,
      ((trace.foldl (handleEvent env rng inp) s).downloaded = true ↔
        (s.downloaded = true ∨
          (s.loadedCount < inp.capturedPhotos.length ∧
            inp.capturedPhotos.length ≤ s.loadedCount + (snapIndices trace).length))) := by
  induction trace with
  | nil =>
    intro s
    simp only [List.foldl_nil, snapIndices, List.filterMap_nil, List.length_nil,
      Nat.add_zero]
    constructor
    · exact Or.inl
    · rintro (h | ⟨h1, h2⟩)
      · exact h
      · omega
  | cons e rest ih =>
    intro s
    cases e with
    | snapLoaded i =>
      have hlc : (handleEvent env rng inp s (.snapLoaded i)).loadedCount
          = s.loadedCount + 1 := by
        simp only [handleEvent]
        split <;> rfl
      have hdl : ((handleEvent env rng inp s (.snapLoaded i)).downloaded = true ↔
          (s.downloaded = true ∨ s.loadedCount + 1 = inp.capturedPhotos.length)) := by
        simp only [handleEvent]
        split
        · rename_i hc
          simp [hc]
        · rename_i hc
          simp [hc]
      have hlen : (snapIndices (Event.snapLoaded i :: rest)).length
          = (snapIndices rest).length + 1 := by
        simp [snapIndices, List.filterMap_cons]
      rw [List.foldl_cons, ih, hdl, hlc, hlen]
      constructor
      · rintro ((hb | hb) | ⟨hb1, hb2⟩)
        · exact Or.inl hb
        · exact Or.inr (by omega)
        · exact Or.inr (by omega)
      · rintro (hb | ⟨hb1, hb2⟩)
        · exact Or.inl (Or.inl hb)
        · by_cases hc : s.loadedCount + 1 = inp.capturedPhotos.length
          · exact Or.inl (Or.inr hc)
          · exact Or.inr (by omega)
    | stickerLoaded slot =>
      have hfields : (handleEvent env rng inp s (.stickerLoaded slot)).loadedCount
            = s.loadedCount ∧
          (handleEvent env rng inp s (.stickerLoaded slot)).downloaded
            = s.downloaded := ⟨rfl, rfl⟩
      have hlen : snapIndices (Event.stickerLoaded slot :: rest) = snapIndices rest := by
        simp [snapIndices, List.filterMap_cons]
      rw [List.foldl_cons, ih, hfields.1, hfields.2, hlen]

theorem foldl_dateDrawn_eq (env : StyleEnv) (rng : Nat → Nat → ℚ)
    (inp : CompositeInput) (trace : List Event) :
    ∀ s : CompState, s.dateDrawn = s.downloaded →
      (trace.foldl (handleEvent env rng inp) s).dateDrawn
        = (trace.foldl (handleEvent env rng inp) s).downloaded := by
  induction trace with
  | nil => intro s h; exact h
  | cons e rest ih =>
    intro s h
    rw [List.foldl_cons]
    apply ih
    cases e with
    | snapLoaded i =>
      simp only [handleEvent]
      split
      · rfl
      · exact h
    | stickerLoaded slot => exact h

/-- Sticker-load events touch only `ops`: the gating fields of two runs that
start field-equal stay field-equal when one run drops all sticker events. -/
theorem foldl_filter_isSnap (env : StyleEnv) (rng : Nat → Nat → ℚ)
    (inp : CompositeInput) (trace : List Event) :
    ∀ s t : CompState,
      s.loadedCount = t.loadedCount → s.dateDrawn = t.dateDrawn →
      s.downloaded = t.downloaded →
      (((trace.filter Event.isSnap).foldl (handleEvent env rng inp) s).loadedCount
          = (trace.foldl (handleEvent env rng inp) t).loadedCount ∧
        ((trace.filter Event.isSnap).foldl (handleEvent env rng inp) s).dateDrawn
          = (trace.foldl (handleEvent env rng inp) t).dateDrawn ∧
        ((trace.filter Event.isSnap).foldl (handleEvent env rng inp) s).downloaded
          = (trace.foldl (handleEvent env rng inp) t).downloaded) := by
  induction trace with
  | nil => exact fun s t h1 h2 h3 => ⟨h1, h2, h3⟩
  | cons e rest ih =>
    intro s t h1 h2 h3
    cases e with
    | snapLoaded i =>
      have hf : (Event.snapLoaded i :: rest).filter Event.isSnap
          = Event.snapLoaded i :: rest.filter Event.isSnap := by
        simp [List.filter_cons, Event.isSnap]
      rw [hf, List.foldl_cons, List.foldl_cons]
      apply ih
      · simp only [handleEvent, h1]
        split <;> rfl
      · simp only [handleEvent, h1]
        split
        · rfl
        · exact h2
      · simp only [handleEvent, h1]
        split
        · rfl
        · exact h3
    | stickerLoaded slot =>
      have hf : (Event.stickerLoaded slot :: rest).filter Event.isSnap
          = rest.filter Event.isSnap := by
        simp [List.filter_cons, Event.isSnap]
      rw [hf, List.foldl_cons]
      exact ih s _ h1 h2 h3

/-- A duplicate-free list of naturals below `n`: its length is at most `n`,
length `n` forces it to cover all of `0..n-1`, and covering all of `0..n-1`
forces length at least `n`. -/
theorem nodup_below_complete (n : Nat) (l : List Nat)
    (hb : ∀ i ∈ l, i < n) (hnd : l.Nodup) :
    l.length ≤ n ∧ (l.length = n → ∀ i < n, i ∈ l) ∧
      ((∀ i < n, i ∈ l) → n ≤ l.length) := by
  have hsub : l.toFinset ⊆ Finset.range n := by
    intro i hi
    rw [List.mem_toFinset] at hi
    exact Finset.mem_range.mpr (hb i hi)
  have hcard : l.toFinset.card = l.length := List.toFinset_card_of_nodup hnd
  refine ⟨?_, ?_, ?_⟩
  · calc l.length = l.toFinset.card := hcard.symm
      _ ≤ (Finset.range n).card := Finset.card_le_card hsub
      _ = n := Finset.card_range n
  · intro hlen i hi
    have heq : l.toFinset = Finset.range n := by
      apply Finset.eq_of_subset_of_card_le hsub
      rw [hcard, hlen, Finset.card_range]
    rw [← List.mem_toFinset, heq]
    exact Finset.mem_range.mpr hi
  · intro hall
    have hsub2 : Finset.range n ⊆ l.toFinset := by
      intro i hi
      rw [List.mem_toFinset]
      exact hall i (Finset.mem_range.mp hi)
    calc n = (Finset.range n).card := (Finset.card_range n).symm
      _ ≤ l.toFinset.card := Finset.card_le_card hsub2
      _ = l.length := hcard

/-- Every image-draw operation the compositor ever emits uses the resolved
composite-time active filter as its context filter. -/
theorem foldl_drawImage_filter (env : StyleEnv) (rng : Nat → Nat → ℚ)
    (inp : CompositeInput) (trace : List Event) :
    ∀ s : CompState,
      (∀ op ∈ s.ops, ∀ img ctxF x y w h, op = DrawOp.drawImage img ctxF x y w h →
        ctxF = resolveFilter env inp.activeFilter.cssFilter) →
      ∀ op ∈ (trace.foldl (handleEvent env rng inp) s).ops,
        ∀ img ctxF x y w h, op = DrawOp.drawImage img ctxF x y w h →
          ctxF = resolveFilter env inp.activeFilter.cssFilter := by
  induction trace with
  | nil => exact fun s hs => hs
  | cons e rest ih =>
    intro s hs
    rw [List.foldl_cons]
    apply ih
    cases e with
    | snapLoaded i =>
      simp only [handleEvent]
      split
      · intro op hop
        simp only [List.mem_append, List.mem_singleton] at hop
        rcases hop with (hop | rfl) | rfl
        · exact hs op hop
        · intro img ctxF x y w h heq
          injection heq with h1 h2 h3 h4 h5 h6
          exact h2.symm
        · intro img ctxF x y w h heq
          simp at heq
      · intro op hop
        simp only [List.mem_append, List.mem_singleton] at hop
        rcases hop with hop | rfl
        · exact hs op hop
        · intro img ctxF x y w h heq
          injection heq with h1 h2 h3 h4 h5 h6
          exact h2.symm
    | stickerLoaded slot =>
      intro op hop
      simp only [handleEvent, List.mem_append] at hop
      rcases hop with hop | hop
      · exact hs op hop
      · intro img ctxF x y w h heq
        obtain ⟨theme, cx, cy, a, sz, _, rfl⟩ :=
          stickerOpsForSlot_shape _ _ _ op hop
        simp at heq

end Photobooth

namespace Photobooth

/-- C1: For every snapshot sequence of length `n ≥ 1`, the composite strip
canvas height produced by `downloadPhotoStrip` equals
`headerPad + n*photoHeight + (n-1)*gap + bottomPad` with header padding 60,
photo height 300, gap 10, and a bottom pad of 40 (16 date padding + 24 date
text height) reserved for the timestamp label; the canvas width is the fixed
photo width 400 plus 40 of margins. -/
theorem strip_dimensions_formula (n : Nat) (h : 1 ≤ n) :
    stripHeight n = 60 + n * 300 + (n - 1) * 10 + 40 ∧
    stripWidth = photoWidth + 40 ∧ stripWidth = 440 := by
  refine ⟨?_, rfl, rfl⟩
  simp [stripHeight, previewPaddingTop, photoHeight, previewPhotoGap,
    previewDatePadding]
  omega

/-- Witness for C1 at a 2-snapshot sequence: the height is the formula at
`n = 2`, namely 710. -/
theorem strip_dimensions_formula_witness :
    stripHeight 2 = 60 + 2 * 300 + (2 - 1) * 10 + 40 ∧ stripHeight 2 = 710 := by
  have h := strip_dimensions_formula 2 (by decide)
  exact ⟨h.1, by decide⟩

/-- C3: A completed capture sequence emits between 0 and 3 snapshots, in shot
order (the output is the availability-filtered shot list, mapped to
snapshots, so relative order matches shot order); when the video/canvas
surface is available at every shot instant exactly 3 snapshots are produced;
an unavailable shot instant is silently skipped (contributes no snapshot)
while the loop continues with the remaining shots rather than aborting. -/
theorem capture_sequence_shape (now : String) (e0 e1 e2 : ShotEnv)
    (s : SessionState) (hidle : s.isCapturing = false) :
    ((startPhotoSequence now e0 e1 e2 s).capturedPhotos =
      ([e0, e1, e2].filter (fun e => e.avail)).map
        (fun e => { frame := e.frame, applied := [e.activeFilter.cssFilter] })) ∧
    (startPhotoSequence now e0 e1 e2 s).capturedPhotos.length ≤ 3 ∧
    (e0.avail = true → e1.avail = true → e2.avail = true →
      (startPhotoSequence now e0 e1 e2 s).capturedPhotos.length = 3) ∧
    (∀ e rest acc, e.avail = false → shotLoop (e :: rest) acc = shotLoop rest acc) := by
  have hrun : (startPhotoSequence now e0 e1 e2 s).capturedPhotos
      = shotLoop [e0, e1, e2] [] := by
    simp [startPhotoSequence, hidle]
  have hfm : shotLoop [e0, e1, e2] [] =
      ([e0, e1, e2].filter (fun e => e.avail)).map
        (fun e => { frame := e.frame, applied := [e.activeFilter.cssFilter] }) := by
    rw [shotLoop_eq_append_filterMap]
    cases h0 : e0.avail <;> cases h1 : e1.avail <;> cases h2 : e2.avail <;>
      simp [capturePhoto, h0, h1, h2]
  refine ⟨hrun.trans hfm, ?_, ?_, ?_⟩
  · rw [hrun, hfm]
    simpa using List.length_filter_le (fun e => e.avail) [e0, e1, e2]
  · intro h0 h1 h2
    rw [hrun, hfm]
    simp [h0, h1, h2]
  · intro e rest acc he
    simp [shotLoop, capturePhoto, he]

/-- Witness for C3: from the idle state, three available shots produce
exactly three snapshots, in shot order. -/
theorem capture_sequence_shape_witness :
    (startPhotoSequence "t" ⟨true, ⟨0⟩, (⟨"No Filter", "none"⟩ : Filter)⟩ ⟨true, ⟨1⟩, (⟨"No Filter", "none"⟩ : Filter)⟩
        ⟨true, ⟨2⟩, (⟨"No Filter", "none"⟩ : Filter)⟩ ⟨[], "", false⟩).capturedPhotos.length = 3 :=
  (capture_sequence_shape "t" ⟨true, ⟨0⟩, (⟨"No Filter", "none"⟩ : Filter)⟩ ⟨true, ⟨1⟩, (⟨"No Filter", "none"⟩ : Filter)⟩
    ⟨true, ⟨2⟩, (⟨"No Filter", "none"⟩ : Filter)⟩ ⟨[], "", false⟩ rfl).2.2.1 rfl rfl rfl

/-- C4: Invoking the capture start operation while a sequence is already
running, or with no live video source attached, is a no-op that leaves the
whole session state unchanged (and signals no error): `startPhotoSequence`
itself returns immediately when `isCapturing`, and the start button is
disabled when `isCapturing || !stream`, so a click changes nothing in either
case. -/
theorem start_guard_noop (now : String) (e0 e1 e2 : ShotEnv)
    (stream : Option MediaStream) (s : SessionState)
    (h : s.isCapturing = true ∨ stream = none) :
    startButtonClick now e0 e1 e2 stream s = s ∧
    (s.isCapturing = true → startPhotoSequence now e0 e1 e2 s = s) := by
  constructor
  · rcases h with h | h <;> simp [startButtonClick, h]
  · intro hc
    simp [startPhotoSequence, hc]

/-- Witness for C4: a click during a running sequence leaves the state
untouched. -/
theorem start_guard_noop_witness :
    startButtonClick "t" ⟨true, ⟨0⟩, (⟨"No Filter", "none"⟩ : Filter)⟩ ⟨true, ⟨1⟩, (⟨"No Filter", "none"⟩ : Filter)⟩
      ⟨true, ⟨2⟩, (⟨"No Filter", "none"⟩ : Filter)⟩ (some ⟨0⟩) ⟨[], "old", true⟩ = ⟨[], "old", true⟩ :=
  (start_guard_noop "t" ⟨true, ⟨0⟩, (⟨"No Filter", "none"⟩ : Filter)⟩ ⟨true, ⟨1⟩, (⟨"No Filter", "none"⟩ : Filter)⟩
    ⟨true, ⟨2⟩, (⟨"No Filter", "none"⟩ : Filter)⟩ (some ⟨0⟩) ⟨[], "old", true⟩ (Or.inl rfl)).1

/-- C5: A non-rejected capture run first discards the previous snapshot
sequence in full — the first `capturedPhotos` value of the run's trace is
`[]`, before any new snapshot is appended — and every later value is a
prefix of the run's final, newly captured sequence (so nothing from a
previous run survives into any state of the new run); the session timestamp
of the final state is exactly the clock reading at the start instant,
whatever happens at the individual shot instants (it is never re-derived per
shot), and that one string is what display and composite reuse. -/
theorem start_resets_and_timestamps_once (now : String) (e0 e1 e2 : ShotEnv)
    (s : SessionState) (hidle : s.isCapturing = false) :
    (capturedPhotosTrace e0 e1 e2).head? = some [] ∧
    (∀ st ∈ capturedPhotosTrace e0 e1 e2,
      st <+: (startPhotoSequence now e0 e1 e2 s).capturedPhotos) ∧
    (startPhotoSequence now e0 e1 e2 s).captureTime = now := by
  refine ⟨rfl, ?_, by simp [startPhotoSequence, hidle]⟩
  intro st hst
  have hrun : (startPhotoSequence now e0 e1 e2 s).capturedPhotos
      = shotLoop [e0, e1, e2] [] := by
    simp [startPhotoSequence, hidle]
  rw [hrun]
  rcases hst with _ | ⟨_, hst⟩
  · exact List.nil_prefix
  · exact shotLoopTrace_prefix [e0, e1, e2] [] st hst

/-- Witness for C5: starting from a session holding an old photo, the new
run's final timestamp is the start-instant clock value and the first trace
state is empty. -/
theorem start_resets_and_timestamps_once_witness :
    (capturedPhotosTrace ⟨true, ⟨0⟩, (⟨"No Filter", "none"⟩ : Filter)⟩ ⟨false, ⟨1⟩, (⟨"No Filter", "none"⟩ : Filter)⟩
        ⟨true, ⟨2⟩, (⟨"No Filter", "none"⟩ : Filter)⟩).head? = some [] ∧
    (startPhotoSequence "2025-01-01" ⟨true, ⟨0⟩, (⟨"No Filter", "none"⟩ : Filter)⟩
        ⟨false, ⟨1⟩, (⟨"No Filter", "none"⟩ : Filter)⟩ ⟨true, ⟨2⟩, (⟨"No Filter", "none"⟩ : Filter)⟩
        ⟨[⟨⟨99⟩, ["old"]⟩], "old-time", false⟩).captureTime = "2025-01-01" := by
  have h := start_resets_and_timestamps_once "2025-01-01"
    ⟨true, ⟨0⟩, (⟨"No Filter", "none"⟩ : Filter)⟩ ⟨false, ⟨1⟩, (⟨"No Filter", "none"⟩ : Filter)⟩
    ⟨true, ⟨2⟩, (⟨"No Filter", "none"⟩ : Filter)⟩ ⟨[⟨⟨99⟩, ["old"]⟩], "old-time", false⟩ rfl
  exact ⟨h.1, h.2.2⟩

/-- C2: With at least one snapshot and a browser-realizable trace, the
compositor triggers the download (and draws the timestamp label, which
happens exactly when the download fires) if and only if every snapshot image
of the sequence has fired its load; sticker image loads never gate this:
deleting every sticker-load event from the trace leaves the download
decision unchanged, so the download may fire before any sticker image has
loaded or drawn. -/
theorem download_gated_on_snapshot_loads (env : StyleEnv) (rng : Nat → Nat → ℚ)
    (inp : CompositeInput) (trace : List Event)
    (hn : 1 ≤ inp.capturedPhotos.length)
    (hwf : WFTrace inp.capturedPhotos.length trace) :
    ((downloadPhotoStrip env rng inp trace).downloaded = true ↔
      ∀ i < inp.capturedPhotos.length, Event.snapLoaded i ∈ trace) ∧
    (downloadPhotoStrip env rng inp trace).dateDrawn
      = (downloadPhotoStrip env rng inp trace).downloaded ∧
    (downloadPhotoStrip env rng inp trace).downloaded
      = (downloadPhotoStrip env rng inp (trace.filter Event.isSnap)).downloaded := by
  have hne : ¬ inp.capturedPhotos.length = 0 := by omega
  have hg : downloadPhotoStrip env rng inp trace
      = trace.foldl (handleEvent env rng inp) (initialCompState inp) := by
    rw [downloadPhotoStrip, if_neg hne]
  have hg2 : downloadPhotoStrip env rng inp (trace.filter Event.isSnap)
      = (trace.filter Event.isSnap).foldl (handleEvent env rng inp)
          (initialCompState inp) := by
    rw [downloadPhotoStrip, if_neg hne]
  obtain ⟨hb, hnd⟩ := hwf
  obtain ⟨hle, hcov, hfull⟩ := nodup_below_complete _ _ hb hnd
  refine ⟨?_, ?_, ?_⟩
  · rw [hg, foldl_downloaded]
    simp only [initialCompState]
    constructor
    · rintro (hfalse | ⟨h1, h2⟩)
      · simp at hfalse
      · intro i hi
        rw [← mem_snapIndices]
        exact hcov (le_antisymm hle (by omega)) i hi
    · intro hall
      refine Or.inr ⟨by omega, ?_⟩
      have := hfull (fun i hi => (mem_snapIndices trace i).mpr (hall i hi))
      omega
  · rw [hg]
    exact foldl_dateDrawn_eq env rng inp trace (initialCompState inp) rfl
  · rw [hg, hg2]
    exact ((foldl_filter_isSnap env rng inp trace _ _ rfl rfl rfl).2.2).symm

/-- Witness for C2: with two snapshots and a trace carrying both snapshot
loads and no sticker load at all, the download fires. -/
theorem download_gated_on_snapshot_loads_witness :
    (downloadPhotoStrip ⟨fun _ => "", fun _ => ""⟩ (fun _ _ => 0)
      ⟨[⟨⟨0⟩, ["none"]⟩, ⟨⟨1⟩, ["none"]⟩], "strip-custom", "#e0f7fa",
        ⟨"No Filter", "none"⟩, "none", "t"⟩
      [Event.snapLoaded 0, Event.snapLoaded 1]).downloaded = true :=
  (download_gated_on_snapshot_loads ⟨fun _ => "", fun _ => ""⟩ (fun _ _ => 0)
    ⟨[⟨⟨0⟩, ["none"]⟩, ⟨⟨1⟩, ["none"]⟩], "strip-custom", "#e0f7fa",
      ⟨"No Filter", "none"⟩, "none", "t"⟩
    [Event.snapLoaded 0, Event.snapLoaded 1]
    (by decide) ⟨by decide, by decide⟩).1.mpr (by decide)

/-- C6: Composing with the custom-color strip style paints the canvas
background as a single flat `fillRect` covering the whole canvas whose color
is exactly the caller-supplied color, for every color value; and the
compositor's synchronous ops for a custom-style input start with exactly
that fill. -/
theorem custom_color_flat_fill (c : String) (w h : ℚ) (inp : CompositeInput)
    (hstyle : inp.stripStyleClass = "strip-custom") :
    paintBackground "strip-custom" c w h = [DrawOp.fillRect c 0 0 w h] ∧
    (initialCompState inp).ops
      = DrawOp.fillRect inp.customColorParam 0 0 (stripWidth : ℚ)
          ((stripHeight inp.capturedPhotos.length : Nat) : ℚ) :: headerOps := by
  constructor
  · rfl
  · simp only [initialCompState, hstyle]
    rfl

/-- Witness for C6: a concrete custom-color composite's synchronous ops are
the flat fill of the supplied color followed by the header. -/
theorem custom_color_flat_fill_witness :
    (initialCompState ⟨[⟨⟨0⟩, ["none"]⟩], "strip-custom", "#abcdef",
        ⟨"No Filter", "none"⟩, "none", "t"⟩).ops
      = DrawOp.fillRect "#abcdef" 0 0 (stripWidth : ℚ)
          ((stripHeight 1 : Nat) : ℚ) :: headerOps :=
  (custom_color_flat_fill "#abcdef" 0 0
    ⟨[⟨⟨0⟩, ["none"]⟩, ], "strip-custom", "#abcdef",
      ⟨"No Filter", "none"⟩, "none", "t"⟩ rfl).2

/-- C7: For a sticker theme other than `"none"` (every such catalog theme is
found with a nonempty image list), the number of stickers drawn per photo
slot is `⌊r·2⌋ + 7 ∈ {7, 8}` for the handler's first random draw `r ∈ [0,1)`,
and every drawn sticker uses the theme's first image resource; the `"none"`
theme has an empty image list and no stickers are drawn at all. -/
theorem sticker_count_and_theme (v : String) (theme : StickerTheme)
    (rng : Nat → ℚ) (y : ℚ)
    (hv : v ≠ "none")
    (hfind : STICKER_THEMES.find? (fun t => t.value = v) = some theme)
    (hr0 : 0 ≤ rng 0) (hr1 : rng 0 < 1) :
    (7 ≤ (stickerOpsForSlot v rng y).length ∧
      (stickerOpsForSlot v rng y).length ≤ 8) ∧
    (∀ op ∈ stickerOpsForSlot v rng y, ∃ cx cy a sz,
      op = DrawOp.drawSticker theme.images.headI cx cy a sz) ∧
    STICKER_THEMES.find? (fun t => t.value = "none")
      = some ⟨"None", "none", []⟩ ∧
    (∀ (rng' : Nat → ℚ) (y' : ℚ), stickerOpsForSlot "none" rng' y' = []) := by
  have hmem : theme ∈ STICKER_THEMES := List.mem_of_find?_eq_some hfind
  have hpv : theme.value = v := by
    have h := List.find?_some hfind
    simpa using h
  have himg : theme.images.length ≠ 0 := by
    simp only [STICKER_THEMES, List.mem_cons, List.not_mem_nil, or_false] at hmem
    rcases hmem with rfl | rfl | rfl | rfl | rfl
    · exact absurd hpv.symm hv
    all_goals simp
  have hlen : (stickerOpsForSlot v rng y).length = (⌊rng 0 * 2⌋).toNat + 7 := by
    simp only [stickerOpsForSlot, hfind]
    rw [if_pos hv, if_pos himg]
    simp
  have hf0 : (0 : ℤ) ≤ ⌊rng 0 * 2⌋ := Int.floor_nonneg.mpr (by nlinarith)
  have hf2 : ⌊rng 0 * 2⌋ < 2 := by
    rw [Int.floor_lt]
    push_cast
    nlinarith
  refine ⟨⟨?_, ?_⟩, ?_, rfl, ?_⟩
  · rw [hlen]
    omega
  · rw [hlen]
    omega
  · intro op hop
    obtain ⟨theme2, cx, cy, a, sz, hfind2, rfl⟩ :=
      stickerOpsForSlot_shape v rng y op hop
    cases Option.some.inj (hfind.symm.trans hfind2)
    exact ⟨cx, cy, a, sz, rfl⟩
  · intro rng' y'
    simp [stickerOpsForSlot]

/-- Witness for C7: the heart theme with the all-zero random stream draws
between 7 and 8 stickers. -/
theorem sticker_count_and_theme_witness :
    7 ≤ (stickerOpsForSlot "heart" (fun _ => 0) 0).length ∧
    (stickerOpsForSlot "heart" (fun _ => 0) 0).length ≤ 8 :=
  (sticker_count_and_theme "heart" ⟨"Heart", "heart", ["/stickers/heart.png"]⟩
    (fun _ => 0) 0 (by decide) (by decide) (le_refl 0) zero_lt_one).1

/-- C8: At composite time the active filter value is resolved before use:
a direct (non-`var(`) transform value is assigned as-is (for the catalog's
only direct value, the no-op `none`), a `var(...)` reference is resolved
against the computed style of the document element and then the body, and
when resolution yields nothing the filter falls back to the no-op `none`. -/
theorem filter_resolution (env : StyleEnv) :
    (∀ f ∈ filters, startsWithVar f.cssFilter = false →
      resolveFilter env f.cssFilter = f.cssFilter) ∧
    (∀ s cap d, startsWithVar s = true → matchVar s = some cap →
      env.documentElement (jsTrim cap) = d → d ≠ "" → jsTrim d = d →
      resolveFilter env s = d) ∧
    (∀ s cap b, startsWithVar s = true → matchVar s = some cap →
      env.documentElement (jsTrim cap) = "" → env.body (jsTrim cap) = b →
      b ≠ "" → jsTrim b = b →
      resolveFilter env s = b) ∧
    (∀ s cap, startsWithVar s = true → matchVar s = some cap →
      env.documentElement (jsTrim cap) = "" → env.body (jsTrim cap) = "" →
      resolveFilter env s = "none") := by
  refine ⟨?_, ?_, ?_, ?_⟩
  · intro f hf hns
    simp only [filters, List.mem_cons, List.not_mem_nil, or_false] at hf
    rcases hf with rfl | rfl | rfl | rfl | rfl | rfl | rfl
    · rfl
    all_goals exact absurd hns (by decide)
  · intro s cap d hstart hmatch hdoc hd htrim
    simp [resolveFilter, hstart, hmatch, hdoc, hd, htrim]
  · intro s cap b hstart hmatch hdoc hbody hb htrim
    simp [resolveFilter, hstart, hmatch, hdoc, hbody, hb, htrim]
  · intro s cap hstart hmatch hdoc hbody
    simp [resolveFilter, hstart, hmatch, hdoc, hbody]
    exact fun _ => rfl

/-- Witness for C8: under a computed style defining `--filter-bw`, the B&W
catalog value resolves to that definition; with nothing defined it falls
back to `none`; the direct value `none` is used as-is. -/
theorem filter_resolution_witness :
    resolveFilter ⟨fun k => if k = "--filter-bw" then "grayscale(1)" else "",
        fun _ => ""⟩ "var(--filter-bw)" = "grayscale(1)" ∧
    resolveFilter ⟨fun _ => "", fun _ => ""⟩ "var(--filter-bw)" = "none" ∧
    resolveFilter ⟨fun _ => "", fun _ => ""⟩ "none" = "none" := by
  refine ⟨?_, ?_, ?_⟩
  · exact (filter_resolution ⟨fun k => if k = "--filter-bw" then "grayscale(1)" else "",
      fun _ => ""⟩).2.1 "var(--filter-bw)" "--filter-bw" "grayscale(1)"
      (by decide) (by decide) (by decide) (by decide) (by decide)
  · exact (filter_resolution ⟨fun _ => "", fun _ => ""⟩).2.2.2 "var(--filter-bw)"
      "--filter-bw" (by decide) (by decide) (by decide) (by decide)
  · exact (filter_resolution ⟨fun _ => "", fun _ => ""⟩).1 ⟨"No Filter", "none"⟩
      (by simp [filters]) (by decide)

/-- C9: Every image-draw the compositor emits uses, as its context filter,
the filter active at composite time after resolution — even though each
snapshot from `capturePhoto` already has its capture-time filter burned in,
so the drawn photo's effective filter chain is the resolved composite-time
filter followed by the capture-time filter (two applications); consequently
changing the active filter between capture and composite changes the emitted
draw operations for every photo. -/
theorem composite_reapplies_active_filter (env : StyleEnv) (rng : Nat → Nat → ℚ)
    (inp : CompositeInput) (trace : List Event) :
    (∀ op ∈ (downloadPhotoStrip env rng inp trace).ops,
      ∀ img ctxF x y w h, op = DrawOp.drawImage img ctxF x y w h →
        ctxF = resolveFilter env inp.activeFilter.cssFilter) ∧
    (∀ e img, capturePhoto e = some img →
      img.applied = [e.activeFilter.cssFilter] ∧
      ∀ x y w h, effectiveFilters (DrawOp.drawImage img
          (resolveFilter env inp.activeFilter.cssFilter) x y w h)
        = some [resolveFilter env inp.activeFilter.cssFilter,
            e.activeFilter.cssFilter]) ∧
    (∀ (s : CompState) (i : Nat) (f1 f2 : Filter),
      resolveFilter env f1.cssFilter ≠ resolveFilter env f2.cssFilter →
      (handleEvent env rng { inp with activeFilter := f1 } s (.snapLoaded i)).ops
        ≠ (handleEvent env rng { inp with activeFilter := f2 } s (.snapLoaded i)).ops) := by
  refine ⟨?_, ?_, ?_⟩
  · intro op hop
    rw [downloadPhotoStrip] at hop
    split at hop
    · simp at hop
    · exact foldl_drawImage_filter env rng inp trace (initialCompState inp)
        (fun op2 hop2 img2 ctxF2 x2 y2 w2 h2 heq2 =>
          absurd heq2 (initial_ops_no_drawImage inp op2 hop2 img2 ctxF2 x2 y2 w2 h2))
        op hop
  · intro e img hcap
    have himg : e.avail = true ∧ img = ⟨e.frame, [e.activeFilter.cssFilter]⟩ := by
      unfold capturePhoto at hcap
      split at hcap
      · exact ⟨by assumption, (Option.some.inj hcap).symm⟩
      · exact absurd hcap (by simp)
    obtain ⟨-, rfl⟩ := himg
    exact ⟨rfl, fun x y w h => rfl⟩
  · intro s i f1 f2 hne heq
    apply hne
    by_cases hc : s.loadedCount + 1 = inp.capturedPhotos.length
    · simp only [handleEvent, hc, if_pos] at heq
      rw [List.append_assoc, List.append_assoc] at heq
      have h2 := List.append_cancel_left heq
      simp at h2
      exact h2
    · simp only [handleEvent, if_neg hc] at heq
      have h2 := List.append_cancel_left heq
      simp at h2
      exact h2

/-- Witness for C9: against a style defining `--filter-bw`, a composite with
the B&W filter active emits different draw operations from one with the
no-op filter active, on the same snapshot. -/
theorem composite_reapplies_active_filter_witness :
    (handleEvent ⟨fun k => if k = "--filter-bw" then "grayscale(1)" else "",
        fun _ => ""⟩ (fun _ _ => 0)
      ⟨[⟨⟨0⟩, ["var(--filter-bw)"]⟩], "strip-custom", "#e0f7fa",
        ⟨"B&W", "var(--filter-bw)"⟩, "none", "t"⟩
      ⟨[], 0, false, false⟩ (.snapLoaded 0)).ops
    ≠ (handleEvent ⟨fun k => if k = "--filter-bw" then "grayscale(1)" else "",
        fun _ => ""⟩ (fun _ _ => 0)
      ⟨[⟨⟨0⟩, ["var(--filter-bw)"]⟩], "strip-custom", "#e0f7fa",
        ⟨"No Filter", "none"⟩, "none", "t"⟩
      ⟨[], 0, false, false⟩ (.snapLoaded 0)).ops :=
  (composite_reapplies_active_filter
    ⟨fun k => if k = "--filter-bw" then "grayscale(1)" else "", fun _ => ""⟩
    (fun _ _ => 0)
    ⟨[⟨⟨0⟩, ["var(--filter-bw)"]⟩], "strip-custom", "#e0f7fa",
      ⟨"No Filter", "none"⟩, "none", "t"⟩ []).2.2
    ⟨[], 0, false, false⟩ 0 ⟨"B&W", "var(--filter-bw)"⟩ ⟨"No Filter", "none"⟩
    (by decide)

/-- C10: An empty snapshot sequence makes `downloadPhotoStrip` return at
once with nothing drawn and no download; and if any single snapshot image
never fires its load, the completion count never reaches the photo count, so
no download is ever triggered and the timestamp label is never drawn — with
no error surfaced anywhere. -/
theorem missing_snapshot_blocks_artifact (env : StyleEnv) (rng : Nat → Nat → ℚ)
    (inp : CompositeInput) (trace : List Event) :
    (inp.capturedPhotos.length = 0 →
      downloadPhotoStrip env rng inp trace
        = { ops := [], loadedCount := 0, dateDrawn := false, downloaded := false }) ∧
    (∀ i, i < inp.capturedPhotos.length →
      WFTrace inp.capturedPhotos.length trace →
      Event.snapLoaded i ∉ trace →
      (downloadPhotoStrip env rng inp trace).downloaded = false ∧
      (downloadPhotoStrip env rng inp trace).dateDrawn = false) := by
  constructor
  · intro h0
    rw [downloadPhotoStrip, if_pos h0]
  · intro i hi hwf hmem
    have hne : ¬ inp.capturedPhotos.length = 0 := by omega
    have hg : downloadPhotoStrip env rng inp trace
        = trace.foldl (handleEvent env rng inp) (initialCompState inp) := by
      rw [downloadPhotoStrip, if_neg hne]
    obtain ⟨hb, hnd⟩ := hwf
    obtain ⟨hle, hcov, -⟩ := nodup_below_complete _ _ hb hnd
    have hnotdl : ¬ (trace.foldl (handleEvent env rng inp)
        (initialCompState inp)).downloaded = true := by
      intro hbool
      have hiff := (foldl_downloaded env rng inp trace (initialCompState inp)).mp hbool
      rcases hiff with hfalse | ⟨h1, h2⟩
      · simp [initialCompState] at hfalse
      · simp only [initialCompState] at h2
        have hLn : (snapIndices trace).length = inp.capturedPhotos.length := by omega
        exact hmem ((mem_snapIndices trace i).mp (hcov hLn i hi))
    have hdl : (trace.foldl (handleEvent env rng inp)
        (initialCompState inp)).downloaded = false := Bool.eq_false_iff.mpr hnotdl
    have hdd := foldl_dateDrawn_eq env rng inp trace (initialCompState inp) rfl
    rw [hg]
    exact ⟨hdl, by rw [hdd, hdl]⟩

/-- Witness for C10: with two snapshots registered but only the first ever
loading, no download fires and no date label is drawn. -/
theorem missing_snapshot_blocks_artifact_witness :
    (downloadPhotoStrip ⟨fun _ => "", fun _ => ""⟩ (fun _ _ => 0)
      ⟨[⟨⟨0⟩, ["none"]⟩, ⟨⟨1⟩, ["none"]⟩], "strip-custom", "#e0f7fa",
        ⟨"No Filter", "none"⟩, "none", "t"⟩
      [Event.snapLoaded 0]).downloaded = false :=
  ((missing_snapshot_blocks_artifact ⟨fun _ => "", fun _ => ""⟩ (fun _ _ => 0)
    ⟨[⟨⟨0⟩, ["none"]⟩, ⟨⟨1⟩, ["none"]⟩], "strip-custom", "#e0f7fa",
      ⟨"No Filter", "none"⟩, "none", "t"⟩
    [Event.snapLoaded 0]).2 1 (by decide) ⟨by decide, by decide⟩ (by decide)).1

end Photobooth
